import Mathlib

/-!
Shallow embedding of the adaptive packet dropper:
`src/ebpf/packet_dropper.bpf.c` (the per-packet fast path) and
`src/ebpf/loader.c` (validation, attachment, and the two slow-path modes).

Machine integers are modelled as `Nat`/`Int` with explicit `% 2^w` where the
C code performs wrapping unsigned arithmetic (`__u64` counters and timestamp
differences, `long` to `__u32` conversion).  The `double` value `pps` computed
at `loader.c:215` is modelled exactly, as a rational number in the finite case
and with the two non-finite IEEE outcomes of division by zero (`+inf` when the
numerator is nonzero, `NaN` when it is `0.0/0.0`) made explicit, since both
comparisons against a `NaN` evaluate to false and every comparison of `+inf`
against a finite bound evaluates to true.
-/

/-- Structure `state` from `packet_dropper.bpf.c` / `loader.c`: the one shared
record.  `packet_count` and `dropped_count` are `__u64`, `drop_probability`
is `__u32`; all are modelled as naturals, with wrap-around written explicitly
at each increment. -/
structure state where
  packet_count : ℕ
  dropped_count : ℕ
  drop_probability : ℕ
deriving DecidableEq, Repr

/-- The TC verdict returned by the fast path: `TC_ACT_OK` accepts the packet,
`TC_ACT_SHOT` drops it. -/
inductive Verdict where
  | tc_act_ok
  | tc_act_shot
deriving DecidableEq, Repr

/-- Function `handle_packet` from `packet_dropper.bpf.c:22-42`.  `m` is the content of
the single `state_map` slot; `lookup_ok` models whether
`bpf_map_lookup_elem` succeeds (on failure the function returns `TC_ACT_OK`
at once, touching nothing); `rand_u32` is the value returned by
`bpf_get_prandom_u32()`; `direction` is the integer tag (1 ingress,
2 egress) used only for the diagnostic record.  The result is the verdict
together with the map content after the invocation. -/
def handle_packet (m : state) (lookup_ok : Bool) (rand_u32 : ℕ) (direction : ℕ) :
    Verdict × state :=
  if lookup_ok then
    let m1 : state := { m with packet_count := (m.packet_count + 1) % 2 ^ 64 }
    if rand_u32 % 100 < m1.drop_probability then
      (Verdict.tc_act_shot, { m1 with dropped_count := (m1.dropped_count + 1) % 2 ^ 64 })
    else
      (Verdict.tc_act_ok, m1)
  else
    (Verdict.tc_act_ok, m)

/-- The IEEE `double` value of `pps` at `loader.c:215`: finite (exact
rational), `+inf` (nonzero over zero) or `NaN` (`0.0/0.0`). -/
inductive Pps where
  | fin (q : ℚ)
  | inf
  | nan

/-- Computes `pps = (double)count_diff * 1e9 / time_diff_ns` (`loader.c:215`), with
the two division-by-zero outcomes explicit. -/
def compute_pps (count_diff time_diff_ns : ℕ) : Pps :=
  if time_diff_ns = 0 then
    if count_diff = 0 then Pps.nan else Pps.inf
  else
    Pps.fin ((count_diff : ℚ) * 1000000000 / (time_diff_ns : ℚ))

/-- The probability mapping of `loader.c:216-220`: `new_prob = 0` unless
`pps > min_rate`; `max_prob` when `pps >= max_rate`; otherwise the `__u32`
truncation of `((pps - min_rate) / (max_rate - min_rate)) * max_prob`.
A comparison against `NaN` is false, a comparison of `+inf` against a finite
bound is true.  `long` values convert to `__u32` modulo `2^32`; the
`(__u32)` cast of the non-negative finite double is its floor. -/
def compute_new_prob (pps : Pps) (min_rate max_rate max_prob : ℤ) : ℕ :=
  match pps with
  | Pps.nan => 0
  | Pps.inf => (max_prob % 2 ^ 32).toNat
  | Pps.fin q =>
    if (min_rate : ℚ) < q then
      if (max_rate : ℚ) ≤ q then
        (max_prob % 2 ^ 32).toNat
      else
        (⌊(q - (min_rate : ℚ)) / ((max_rate : ℚ) - (min_rate : ℚ)) * (max_prob : ℚ)⌋).toNat
    else 0

/-- The control-loop baseline (`last_time_ns`, `last_packet_count` in
`loader.c:76`): the RateSample carried from one tick to the next. -/
structure LoopState where
  last_time_ns : ℕ
  last_packet_count : ℕ
deriving DecidableEq, Repr

/-- One iteration of the dynamic-mode loop body, `loader.c:206-222`, after
the sleep.  `m` is the current content of the map slot, `lookup_ok` models
the `bpf_map_lookup_elem` result at line 209 (on failure the body is a
`continue`: nothing is read, written or advanced), `now_ns` is
`get_time_ns()`.  Differences of `__u64` values are wrapping unsigned
subtractions.  The first component is the record passed to
`bpf_map_update_elem` (`none` when the tick performs no write); the second
is the new baseline. -/
def dynamic_tick (m : state) (lookup_ok : Bool) (now_ns : ℕ)
    (min_rate max_rate max_prob : ℤ) (ls : LoopState) : Option state × LoopState :=
  if lookup_ok then
    let time_diff_ns := (2 ^ 64 + now_ns - ls.last_time_ns) % 2 ^ 64
    let count_diff := (2 ^ 64 + m.packet_count - ls.last_packet_count) % 2 ^ 64
    let new_ls : LoopState := ⟨now_ns, m.packet_count⟩
    let new_prob := compute_new_prob (compute_pps count_diff time_diff_ns) min_rate max_rate max_prob
    (some { m with drop_probability := new_prob }, new_ls)
  else
    (none, ls)

/-- Iterating the dynamic loop over a list of tick inputs (lookup outcome and
clock reading per tick).  A tick that writes replaces the map slot; a tick
that does not leaves it as is.  Every tick is followed by the next: the loop
body of `loader.c:205-223` has no exit path. -/
def run_ticks (min_rate max_rate max_prob : ℤ) :
    List (Bool × ℕ) → state → LoopState → state × LoopState
  | [], m, ls => (m, ls)
  | (lk, t) :: rest, m, ls =>
    let r := dynamic_tick m lk t min_rate max_rate max_prob ls
    run_ticks min_rate max_rate max_prob rest (r.1.getD m) r.2

/-- The record written once by fixed mode (`loader.c:192`):
`{ .packet_count = 0, .dropped_count = 0, .drop_probability = prob }`, the
`long` probability converted to `__u32`.  `bpf_map_update_elem` replaces the
whole map slot with this record. -/
def fixed_state (prob : ℤ) : state :=
  { packet_count := 0, dropped_count := 0, drop_probability := (prob % 2 ^ 32).toNat }

/-- Enumeration `operating_mode` from `loader.c:28-31`. -/
inductive Mode where
  | dynamic
  | fixed
deriving DecidableEq, Repr

/-- The command-line values after option parsing (`loader.c:76-121`):
`mode = none` models the `-1` sentinel (mode never given), `prob = -1`
models `--prob` never given, the dynamic parameters carry their defaults
when not given, and `has_interface` models `optind < argc`. -/
structure CmdArgs where
  mode : Option Mode
  prob : ℤ
  max_prob : ℤ
  min_rate : ℤ
  max_rate : ℤ
  has_interface : Bool
deriving DecidableEq, Repr

/-- The outcomes of the external calls that `main` makes during setup:
`if_nametoindex` (0 means unknown interface), the BPF object open/load,
program lookup, `bpf_tc_hook_create` (its `int` error code; `-EEXIST = -17`
is tolerated), the two `bpf_tc_attach` calls, `bpf_object__find_map_fd_by_name`
(negative means failure) and, in fixed mode, the one `bpf_map_update_elem`. -/
structure Env where
  ifindex : ℕ
  open_ok : Bool
  load_ok : Bool
  find_progs_ok : Bool
  hook_create_err : ℤ
  attach_ingress_ok : Bool
  attach_egress_ok : Bool
  map_fd : ℤ
  fixed_update_ok : Bool
deriving DecidableEq, Repr

/-- How a run of `main` leaves the sequential startup phase:
`exited code attach_attempted` when the process exits with `code`
(`attach_attempted` records whether any `bpf_tc_attach` call was made
before exiting), `fixed_loop published` when it enters the idle fixed-mode
loop having published `published` to the map, and
`dynamic_loop min_rate max_rate max_prob` when it enters the dynamic
control loop with those parameters. -/
inductive Outcome where
  | exited (code : ℕ) (attach_attempted : Bool)
  | fixed_loop (published : state)
  | dynamic_loop (min_rate max_rate max_prob : ℤ)
deriving DecidableEq, Repr

/-- The sequential control flow of `main` (`loader.c:72-227`): validation in
source order, then setup.  (Named `loader_main` because Lean reserves `main`
for an entry point.)  On an attach failure, a failed map lookup, or a failed
fixed-mode map update, the code calls `cleanup(0)` (`loader.c:42-47`), which
destroys the TC hook and then calls `exit(0)` — so those paths leave the
process with exit code 0 and the `return 1` statements after them are
unreachable. -/
def loader_main (a : CmdArgs) (env : Env) : Outcome :=
  match a.mode with
  | none => Outcome.exited 1 false
  | some md =>
    if md = Mode.fixed ∧ a.prob = -1 then Outcome.exited 1 false
    else if md = Mode.fixed ∧ (a.prob < 0 ∨ 100 < a.prob) then Outcome.exited 1 false
    else if md = Mode.dynamic ∧ (a.max_prob < 0 ∨ 100 < a.max_prob) then Outcome.exited 1 false
    else if a.has_interface = false then Outcome.exited 1 false
    else if env.ifindex = 0 then Outcome.exited 1 false
    else if env.open_ok = false then Outcome.exited 1 false
    else if env.load_ok = false then Outcome.exited 1 false
    else if env.find_progs_ok = false then Outcome.exited 1 false
    else if env.hook_create_err ≠ 0 ∧ env.hook_create_err ≠ -17 then Outcome.exited 1 false
    else if env.attach_ingress_ok = false then Outcome.exited 0 true
    else if env.attach_egress_ok = false then Outcome.exited 0 true
    else if env.map_fd < 0 then Outcome.exited 0 true
    else
      match md with
      | Mode.fixed =>
        if env.fixed_update_ok then Outcome.fixed_loop (fixed_state a.prob)
        else Outcome.exited 0 true
      | Mode.dynamic => Outcome.dynamic_loop a.min_rate a.max_rate a.max_prob

/-- Helper: the mapping of `loader.c:216-220` never produces a value above
100 when `max_prob` passed validation, whatever the rate thresholds (also
when `min_rate >= max_rate`) and whatever the measured rate (also the
non-finite outcomes of a zero-elapsed tick). -/
theorem compute_new_prob_le_100 (pps : Pps) (min_rate max_rate max_prob : ℤ)
    (hp0 : 0 ≤ max_prob) (hp1 : max_prob ≤ 100) :
    compute_new_prob pps min_rate max_rate max_prob ≤ 100 := by
  cases pps with
  | nan => simp [compute_new_prob]
  | inf =>
    simp only [compute_new_prob]
    omega
  | fin q =>
    simp only [compute_new_prob]
    split_ifs with h1 h2
    · omega
    · have h2q : q < (max_rate : ℚ) := not_le.mp h2
      have hden : (0 : ℚ) < (max_rate : ℚ) - (min_rate : ℚ) := by linarith
      have hle1 : (q - (min_rate : ℚ)) / ((max_rate : ℚ) - (min_rate : ℚ)) ≤ 1 := by
        rw [div_le_one hden]; linarith
      have hmp : (0 : ℚ) ≤ (max_prob : ℚ) := by exact_mod_cast hp0
      have hr : (q - (min_rate : ℚ)) / ((max_rate : ℚ) - (min_rate : ℚ)) * (max_prob : ℚ)
          ≤ (max_prob : ℚ) := mul_le_of_le_one_left hmp hle1
      have hfl : ⌊(q - (min_rate : ℚ)) / ((max_rate : ℚ) - (min_rate : ℚ)) * (max_prob : ℚ)⌋
          ≤ max_prob := by
        have hmono := Int.floor_le_floor hr
        rwa [Int.floor_intCast] at hmono
      omega
    · omega

/-- Claim C1, counterexample.  A dynamic tick whose clock reading equals the
stored baseline timestamp (elapsed = 0), taken while the map holds
`packet_count = 5` and `drop_probability = 0` under the default thresholds,
writes `drop_probability = 50` (the configured `max_prob`): the probability
update is not skipped and `drop_probability` is not left unchanged, contrary
to the claim. -/
theorem C1_counterexample_zero_elapsed_writes :
    (dynamic_tick ⟨5, 0, 0⟩ true 100 1000 100000 50 ⟨100, 0⟩).1 = some ⟨5, 0, 50⟩ ∧
    (50 : ℕ) ≠ (state.mk 5 0 0).drop_probability := by decide

/-- Claim C1, amended.  On a dynamic tick with elapsed time zero (elapsed
can never be negative: it is an unsigned difference of monotonic clock
readings) the stored baseline is still advanced to the current time and
packet count, but the probability update is not skipped: the floating-point
division by zero yields NaN when no packets were counted in the interval
(both comparisons fail, so 0 is written) and +infinity otherwise
(`max_prob` is written).  No arithmetic fault occurs. -/
theorem C1_zero_elapsed_tick_advances_baseline_and_writes (m : state) (now_ns : ℕ)
    (min_rate max_rate max_prob : ℤ) (ls : LoopState)
    (h_eq : now_ns = ls.last_time_ns)
    (hpc : m.packet_count < 2 ^ 64) (hlpc : ls.last_packet_count ≤ m.packet_count) :
    dynamic_tick m true now_ns min_rate max_rate max_prob ls =
      (some { m with drop_probability :=
        if m.packet_count = ls.last_packet_count then 0 else (max_prob % 2 ^ 32).toNat },
        ⟨now_ns, m.packet_count⟩) := by
  have ht : (18446744073709551616 + now_ns - ls.last_time_ns) % 18446744073709551616 = 0 := by
    omega
  have hc : (18446744073709551616 + m.packet_count - ls.last_packet_count) % 18446744073709551616
      = m.packet_count - ls.last_packet_count := by omega
  by_cases hz : m.packet_count = ls.last_packet_count
  · have hz0 : m.packet_count - ls.last_packet_count = 0 := by omega
    simp [dynamic_tick, ht, hc, hz0, compute_pps, compute_new_prob, hz]
  · have hnz : m.packet_count - ls.last_packet_count ≠ 0 := by omega
    simp [dynamic_tick, ht, hc, hnz, compute_pps, compute_new_prob, hz]

/-- Claim C1, witness for the amended theorem at a concrete zero-elapsed
tick: baseline advances and `max_prob = 50` is written over the previous
probability 0. -/
theorem C1_zero_elapsed_tick_witness :
    dynamic_tick ⟨5, 0, 0⟩ true 100 1000 100000 50 ⟨100, 0⟩ =
      (some ⟨5, 0, 50⟩, ⟨100, 5⟩) := by
  have h := C1_zero_elapsed_tick_advances_baseline_and_writes ⟨5, 0, 0⟩ 100 1000 100000 50
    ⟨100, 0⟩ rfl (by decide) (by decide)
  simpa using h

/-- Claim C2.  A run selecting fixed mode with a valid probability, on which
everything up to and including hook creation succeeds but the ingress
`bpf_tc_attach` fails, leaves the process with exit code 0, not 1: the
failure path calls `cleanup(0)` (`loader.c:177`), and `cleanup` ends in
`exit(0)` (`loader.c:46`), making the `return 1` after it unreachable.
This contradicts the claim that every setup failure exits with code 1 and
that code 0 is reached only via interruption-triggered shutdown. -/
theorem C2_attach_failure_exits_zero :
    loader_main ⟨some Mode.fixed, 37, 50, 1000, 100000, true⟩
      ⟨3, true, true, true, 0, false, true, 4, true⟩ = Outcome.exited 0 true := by decide

/-- Claim C3.  The dynamic mapping of `loader.c:216-220` is the claimed
clamped piecewise-linear function of the finite measured rate, for ordered
thresholds and a validated `max_prob`: rates at or below `min_rate` map to
0; rates strictly between the thresholds map to
`floor((pps - min_rate) / (max_rate - min_rate) * max_prob)`; rates at or
above `max_rate` map to `max_prob`; and the five concrete examples with
`min_rate = 1000`, `max_rate = 100000`, `max_prob = 50` evaluate as the
claim states. -/
theorem C3_dynamic_probability_mapping (min_rate max_rate max_prob : ℤ) (q : ℚ)
    (hmr : min_rate < max_rate) (hp0 : 0 ≤ max_prob) (hp1 : max_prob ≤ 100) :
    (q ≤ (min_rate : ℚ) → compute_new_prob (Pps.fin q) min_rate max_rate max_prob = 0) ∧
    ((min_rate : ℚ) < q → q < (max_rate : ℚ) →
      (compute_new_prob (Pps.fin q) min_rate max_rate max_prob : ℤ) =
        ⌊(q - (min_rate : ℚ)) / ((max_rate : ℚ) - (min_rate : ℚ)) * (max_prob : ℚ)⌋) ∧
    ((max_rate : ℚ) ≤ q →
      (compute_new_prob (Pps.fin q) min_rate max_rate max_prob : ℤ) = max_prob) ∧
    compute_new_prob (Pps.fin 1000) 1000 100000 50 = 0 ∧
    compute_new_prob (Pps.fin 50500) 1000 100000 50 = 25 ∧
    compute_new_prob (Pps.fin 100000) 1000 100000 50 = 50 ∧
    compute_new_prob (Pps.fin 200000) 1000 100000 50 = 50 ∧
    compute_new_prob (Pps.fin 500) 1000 100000 50 = 0 := by
  refine ⟨?_, ?_, ?_, ?_, ?_, ?_, ?_, ?_⟩
  · intro hle
    simp only [compute_new_prob]
    rw [if_neg (not_lt.mpr hle)]
  · intro h1 h2
    simp only [compute_new_prob]
    rw [if_pos h1, if_neg (not_le.mpr h2)]
    have hden : (0 : ℚ) < (max_rate : ℚ) - (min_rate : ℚ) := by
      have hcast : (min_rate : ℚ) < (max_rate : ℚ) := by exact_mod_cast hmr
      linarith
    have hnum : (0 : ℚ) ≤ q - (min_rate : ℚ) := by linarith
    have hmp : (0 : ℚ) ≤ (max_prob : ℚ) := by exact_mod_cast hp0
    have hr : (0 : ℚ) ≤ (q - (min_rate : ℚ)) / ((max_rate : ℚ) - (min_rate : ℚ)) * (max_prob : ℚ) :=
      mul_nonneg (div_nonneg hnum hden.le) hmp
    exact Int.toNat_of_nonneg (Int.floor_nonneg.mpr hr)
  · intro h3
    have h1 : (min_rate : ℚ) < q := by
      have hcast : (min_rate : ℚ) < (max_rate : ℚ) := by exact_mod_cast hmr
      linarith
    simp only [compute_new_prob]
    rw [if_pos h1, if_pos h3]
    have hmod : max_prob % 2 ^ 32 = max_prob := Int.emod_eq_of_lt hp0 (by omega)
    rw [hmod, Int.toNat_of_nonneg hp0]
  · norm_num [compute_new_prob]
  · norm_num [compute_new_prob]
    decide
  · norm_num [compute_new_prob]
    decide
  · norm_num [compute_new_prob]
    decide
  · norm_num [compute_new_prob]

/-- Claim C3, witness at the middle linear segment: `pps = 50500` under the
default configuration evaluates to the claimed floor expression and to 25. -/
theorem C3_dynamic_probability_mapping_witness :
    (compute_new_prob (Pps.fin 50500) 1000 100000 50 : ℤ) =
      ⌊((50500 : ℚ) - ((1000 : ℤ) : ℚ)) / (((100000 : ℤ) : ℚ) - ((1000 : ℤ) : ℚ)) *
        ((50 : ℤ) : ℚ)⌋ ∧
    compute_new_prob (Pps.fin 50500) 1000 100000 50 = 25 :=
  ⟨(C3_dynamic_probability_mapping 1000 100000 50 50500 (by decide) (by decide) (by decide)).2.1
      (by norm_num) (by norm_num),
   (C3_dynamic_probability_mapping 1000 100000 50 50500 (by decide) (by decide)
      (by decide)).2.2.2.2.1⟩

/-- Claim C4.  Given that validation succeeded (`prob` in `[0,100]` for the
fixed-mode writer, `max_prob` in `[0,100]` for the dynamic writer), every
value of `drop_probability` published to the shared map is at most 100 (and
at least 0, being a natural): the one fixed-mode record, and the record
written by any dynamic tick that writes at all — for all rate thresholds,
including `min_rate >= max_rate`, and for all measured rates including the
non-finite zero-elapsed outcomes. -/
theorem C4_published_probability_in_range (prob min_rate max_rate max_prob : ℤ)
    (hprob0 : 0 ≤ prob) (hprob1 : prob ≤ 100) (hp0 : 0 ≤ max_prob) (hp1 : max_prob ≤ 100) :
    (fixed_state prob).drop_probability ≤ 100 ∧
    ∀ (m : state) (lookup_ok : Bool) (now_ns : ℕ) (ls : LoopState) (s : state),
      (dynamic_tick m lookup_ok now_ns min_rate max_rate max_prob ls).1 = some s →
      s.drop_probability ≤ 100 := by
  constructor
  · simp only [fixed_state]
    omega
  · intro m lk now_ns ls s hs
    cases lk with
    | false => simp [dynamic_tick] at hs
    | true =>
      simp [dynamic_tick] at hs
      subst hs
      exact compute_new_prob_le_100 _ _ _ _ hp0 hp1

/-- Claim C4, witness: the fixed-mode record for `--prob 37` and the record
written by a concrete dynamic tick both carry a probability at most 100. -/
theorem C4_published_probability_in_range_witness :
    (fixed_state 37).drop_probability ≤ 100 ∧ (state.mk 5 0 50).drop_probability ≤ 100 :=
  ⟨(C4_published_probability_in_range 37 1000 100000 50 (by decide) (by decide) (by decide)
      (by decide)).1,
   (C4_published_probability_in_range 37 1000 100000 50 (by decide) (by decide) (by decide)
      (by decide)).2 ⟨5, 0, 0⟩ true 100 ⟨100, 0⟩ ⟨5, 0, 50⟩ (by decide)⟩

/-- Claim C5, counterexample.  After one fast-path invocation the map holds
`packet_count = 1`; the fixed-mode write (`loader.c:192-193`) then replaces
the whole record with `{0, 0, prob}`, so it does not leave the counters
unchanged (here `packet_count` drops from 1 to 0), contrary to the claim. -/
theorem C5_counterexample_fixed_write_resets_counters :
    (handle_packet ⟨0, 0, 0⟩ true 7 1).2.packet_count = 1 ∧
    (fixed_state 37).packet_count ≠ (handle_packet ⟨0, 0, 0⟩ true 7 1).2.packet_count := by
  decide

/-- Claim C5, amended.  The fast path never changes `drop_probability`; a
dynamic tick that writes leaves both counters at the values it read at the
start of the tick (so, taking the tick as atomic, a tick leaves the counters
unchanged); but the slow path writes whole records, and the single
fixed-mode write in particular resets both counters to zero rather than
leaving them unchanged. -/
theorem C5_writer_domains (m : state) (lookup_ok : Bool) (rand_u32 direction now_ns : ℕ)
    (min_rate max_rate max_prob prob : ℤ) (ls : LoopState) :
    (handle_packet m lookup_ok rand_u32 direction).2.drop_probability = m.drop_probability ∧
    (∀ s, (dynamic_tick m true now_ns min_rate max_rate max_prob ls).1 = some s →
      s.packet_count = m.packet_count ∧ s.dropped_count = m.dropped_count) ∧
    (fixed_state prob).packet_count = 0 ∧
    (fixed_state prob).dropped_count = 0 := by
  refine ⟨?_, ?_, rfl, rfl⟩
  · simp only [handle_packet]
    split_ifs <;> rfl
  · intro s hs
    simp [dynamic_tick] at hs
    subst hs
    exact ⟨rfl, rfl⟩

/-- Claim C5, witness: a concrete fast-path invocation preserves the
probability, and a concrete dynamic tick preserves both counters. -/
theorem C5_writer_domains_witness :
    (handle_packet ⟨3, 1, 40⟩ true 7 1).2.drop_probability = (state.mk 3 1 40).drop_probability ∧
    ((state.mk 5 0 50).packet_count = (state.mk 5 0 0).packet_count ∧
      (state.mk 5 0 50).dropped_count = (state.mk 5 0 0).dropped_count) :=
  ⟨(C5_writer_domains ⟨3, 1, 40⟩ true 7 1 100 1000 100000 50 37 ⟨100, 0⟩).1,
   (C5_writer_domains ⟨5, 0, 0⟩ true 7 1 100 1000 100000 50 37 ⟨100, 0⟩).2.1
      ⟨5, 0, 50⟩ (by decide)⟩

/-- Claim C6, counterexample.  An invocation whose map lookup fails returns
at once (`packet_dropper.bpf.c:29-31`) and does not increment
`packet_count`, so it is not the case that every invocation increments
`packet_count` exactly once. -/
theorem C6_counterexample_lookup_failure_no_increment :
    (handle_packet ⟨0, 0, 0⟩ false 7 1).2.packet_count ≠ (0 + 1) % 2 ^ 64 := by decide

/-- Claim C6, amended.  For every invocation whose map lookup succeeds,
`packet_count` is incremented exactly once (as a wrapping `__u64`) whatever
the verdict, and `dropped_count` is incremented exactly when the verdict is
Drop and unchanged when it is Accept; an invocation whose lookup fails
increments neither counter. -/
theorem C6_counter_increments (m : state) (rand_u32 direction : ℕ) :
    ((handle_packet m true rand_u32 direction).2.packet_count = (m.packet_count + 1) % 2 ^ 64) ∧
    ((handle_packet m true rand_u32 direction).1 = Verdict.tc_act_shot →
      (handle_packet m true rand_u32 direction).2.dropped_count =
        (m.dropped_count + 1) % 2 ^ 64) ∧
    ((handle_packet m true rand_u32 direction).1 = Verdict.tc_act_ok →
      (handle_packet m true rand_u32 direction).2.dropped_count = m.dropped_count) ∧
    (handle_packet m false rand_u32 direction).2.packet_count = m.packet_count ∧
    (handle_packet m false rand_u32 direction).2.dropped_count = m.dropped_count := by
  simp only [handle_packet]
  split_ifs with h <;> simp_all

/-- Claim C6, witness: a concrete dropping invocation increments both
counters once. -/
theorem C6_counter_increments_witness :
    (handle_packet ⟨0, 0, 100⟩ true 7 1).2.packet_count = (0 + 1) % 2 ^ 64 ∧
    (handle_packet ⟨0, 0, 100⟩ true 7 1).2.dropped_count = (0 + 1) % 2 ^ 64 :=
  ⟨(C6_counter_increments ⟨0, 0, 100⟩ 7 1).1,
   (C6_counter_increments ⟨0, 0, 100⟩ 7 1).2.1 (by decide)⟩

/-- Claim C7.  The fast path draws `bpf_get_prandom_u32() % 100`, a value in
`[0,100)`, and returns Drop exactly when the draw is strictly below the
current `drop_probability`; hence probability 0 never yields Drop and
probability 100 always does.  (The PRNG output is an oracle of the model;
its distribution is outside the embedding.) -/
theorem C7_draw_threshold_semantics (m : state) (rand_u32 direction : ℕ) :
    rand_u32 % 100 < 100 ∧
    ((handle_packet m true rand_u32 direction).1 = Verdict.tc_act_shot ↔
      rand_u32 % 100 < m.drop_probability) ∧
    (m.drop_probability = 0 → (handle_packet m true rand_u32 direction).1 = Verdict.tc_act_ok) ∧
    (m.drop_probability = 100 →
      (handle_packet m true rand_u32 direction).1 = Verdict.tc_act_shot) := by
  refine ⟨Nat.mod_lt _ (by norm_num), ?_, ?_, ?_⟩
  · simp only [handle_packet, if_true]
    split_ifs with h
    · simpa using h
    · simpa using h
  · intro h0
    simp [handle_packet, h0]
  · intro h100
    have hlt : rand_u32 % 100 < m.drop_probability := by
      rw [h100]; exact Nat.mod_lt _ (by norm_num)
    simp [handle_packet, hlt]

/-- Claim C7, witness: with probability 100 a concrete invocation drops,
with probability 0 it accepts. -/
theorem C7_draw_threshold_semantics_witness :
    (handle_packet ⟨0, 0, 100⟩ true 7 1).1 = Verdict.tc_act_shot ∧
    (handle_packet ⟨5, 2, 0⟩ true 7 1).1 = Verdict.tc_act_ok :=
  ⟨(C7_draw_threshold_semantics ⟨0, 0, 100⟩ 7 1).2.2.2 rfl,
   (C7_draw_threshold_semantics ⟨5, 2, 0⟩ 7 1).2.2.1 rfl⟩

/-- Claim C8.  A dynamic tick whose map lookup fails performs no write and
leaves the baseline exactly as it was (as if no time had passed), and the
loop simply proceeds with the remaining ticks: running the loop on a
failing tick followed by any continuation equals running the continuation
alone.  The loop body has no fatal path. -/
theorem C8_transient_lookup_failure_skips_tick (m : state) (now_ns : ℕ)
    (min_rate max_rate max_prob : ℤ) (ls : LoopState) (rest : List (Bool × ℕ)) :
    dynamic_tick m false now_ns min_rate max_rate max_prob ls = (none, ls) ∧
    run_ticks min_rate max_rate max_prob ((false, now_ns) :: rest) m ls =
      run_ticks min_rate max_rate max_prob rest m ls := by
  constructor <;> simp [run_ticks, dynamic_tick]

/-- Claim C9.  Whenever the command line omits the mode, or selects fixed
mode with `--prob` missing (the `-1` sentinel) or outside `[0,100]`, or
selects dynamic mode with `--max-prob` outside `[0,100]`, `main` exits with
code 1 before any `bpf_tc_attach` call is made, whatever the environment
would have answered. -/
theorem C9_validation_precedes_attachment (a : CmdArgs) (env : Env)
    (h : a.mode = none ∨
      (a.mode = some Mode.fixed ∧ (a.prob = -1 ∨ a.prob < 0 ∨ 100 < a.prob)) ∨
      (a.mode = some Mode.dynamic ∧ (a.max_prob < 0 ∨ 100 < a.max_prob))) :
    loader_main a env = Outcome.exited 1 false := by
  rcases h with h | ⟨hm, hp⟩ | ⟨hm, hp⟩
  · simp [loader_main, h]
  · by_cases hp1 : a.prob = -1
    · simp [loader_main, hm, hp1]
    · have hrange : a.prob < 0 ∨ 100 < a.prob := by omega
      simp [loader_main, hm, hp1, hrange]
  · simp [loader_main, hm, hp]

/-- Claim C9, witness: omitting the mode exits 1 with no attachment even in
an environment where every setup step would succeed. -/
theorem C9_validation_precedes_attachment_witness :
    loader_main ⟨none, -1, 50, 1000, 100000, true⟩
      ⟨3, true, true, true, 0, true, true, 4, true⟩ = Outcome.exited 1 false :=
  C9_validation_precedes_attachment _ _ (Or.inl rfl)

/-- Claim C10.  A fast-path invocation whose map lookup fails returns Accept
(`TC_ACT_OK`) and leaves the shared record exactly as it was: neither
counter is incremented and the probability is untouched. -/
theorem C10_lookup_failure_leaves_state_unchanged (m : state) (rand_u32 direction : ℕ) :
    handle_packet m false rand_u32 direction = (Verdict.tc_act_ok, m) := by
  simp [handle_packet]
